import Mathlib

/-
Verification of the two vedo example notebooks:
  examples/notebooks/basic/pca.ipynb
  examples/notebooks/pyplot/histo_1D.ipynb
Each notebook is a flat sequence of library calls.  We embed each script as
a list of operations, one per source statement, keeping every argument that
appears in the source.  Library behaviour that the notebooks merely consume
(point containment, bin recoloring, the NumPy global random generator) is
modelled separately from the specification's description of the call surface.
-/

namespace VedoNotebooks

/-- A numeric literal of the source, kept as the pair numerator/denominator
(`4/3` is `⟨4, 3⟩`, `0.5` is `⟨1, 2⟩`, `1.3` is `⟨13, 10⟩`, `20` is `⟨20, 1⟩`). -/
structure NumLit where
  num : Int
  den : Nat
deriving DecidableEq, Repr

/-- Keyword options passed to the `histogram` constructor, as they appear in
the notebook source. -/
inductive HistOpt where
  | bins : Nat → HistOpt
  | errors : Bool → HistOpt
  | aspect : NumLit → HistOpt
  | title : String → HistOpt
  | c : String → HistOpt
  | marker : String → HistOpt
  | format : String → HistOpt
  | alpha : NumLit → HistOpt
deriving DecidableEq, Repr

/-- One operation of a notebook script.  Each constructor corresponds to one
statement of the source; string arguments are the variable names and string
literals of the source, numeric arguments its numeric literals. -/
inductive Op where
  | importNumpy : Op
  | importVedo : Op
  | importHistogramFn : Op
  | embedWindow : String → Op
  | npSeed : Nat → Op
  | npRandn1D : String → Nat → Op
  | npRandScaled : String → Nat → Op
  | histogramCall : String → String → List HistOpt → Op
  | unpackRecolor : String → Nat → String → Op
  | addText3D : String → String → NumLit → NumLit → String → Op
  | showCall : List String → NumLit → Op
  | mkPlotter : String → Op
  | npRandn2D : String → Nat → Nat → Op
  | pcaEllipsoidCall : String → String → NumLit → Op
  | plotterAdd : String → String → Op
  | insidePointsCall : String → String → String → Bool → Op
  | plotterAddPoints : String → String → String → Op
  | printcCount : String → String → Op
  | printcAsphericity : String → Op
  | plotterShow : String → Op
  | plotterClose : String → Op
deriving DecidableEq, Repr

/-- The statements of `histo_1D.ipynb` (its single code cell), in textual
order. -/
def histo1D_trace : List Op :=
  [ Op.importNumpy,
    Op.importVedo,
    Op.importHistogramFn,
    Op.embedWindow "2d",
    Op.npSeed 3,
    Op.npRandn1D "data1" 250,
    Op.npRandScaled "data2" 250,
    Op.histogramCall "hst1" "data1"
      [ HistOpt.bins 30, HistOpt.errors true, HistOpt.aspect ⟨4, 3⟩,
        HistOpt.title "My distributions", HistOpt.c "red", HistOpt.marker "o" ],
    Op.unpackRecolor "hst1" 15 "violet",
    Op.addText3D "hst1" "Highlight a\nspecial bin" ⟨1, 2⟩ ⟨20, 1⟩ "v",
    Op.histogramCall "hst2" "data2" [ HistOpt.format "hst1", HistOpt.alpha ⟨1, 2⟩ ],
    Op.showCall ["hst1", "hst2"] ⟨13, 10⟩ ]

/-- The statements of `pca.ipynb` (code cells 0 and 1), in textual order. -/
def pca_trace : List Op :=
  [ Op.importVedo,
    Op.importNumpy,
    Op.mkPlotter "plt",
    Op.npRandn2D "pts" 500 3,
    Op.pcaEllipsoidCall "elli" "pts" ⟨1, 2⟩,
    Op.plotterAdd "plt" "elli",
    Op.insidePointsCall "ipts" "elli" "pts" false,
    Op.insidePointsCall "opts" "elli" "pts" true,
    Op.plotterAddPoints "plt" "ipts" "g",
    Op.plotterAddPoints "plt" "opts" "r",
    Op.printcCount "ipts" "g",
    Op.printcCount "opts" "r",
    Op.printcAsphericity "elli",
    Op.plotterShow "plt",
    Op.plotterClose "plt" ]

def isPcaEllipsoidCall : Op → Bool
  | Op.pcaEllipsoidCall _ _ _ => true
  | _ => false

def isInsidePointsCall : Op → Bool
  | Op.insidePointsCall _ _ _ _ => true
  | _ => false

def isCountAccess : Op → Bool
  | Op.printcCount _ _ => true
  | _ => false

def isAsphericityCall : Op → Bool
  | Op.printcAsphericity _ => true
  | _ => false

def isHistogramCall : Op → Bool
  | Op.histogramCall _ _ _ => true
  | _ => false

def isShowCall : Op → Bool
  | Op.showCall _ _ => true
  | _ => false

/-- C1: the PCA script performs exactly one ellipsoid-fitting call; it passes
the 500-by-3 point cloud `pts` and the confidence-mass parameter
`pvalue = 0.5`; the returned object's containment test is invoked once
without the inversion flag and once with it, the point-count accessor is
invoked once on each containment result, and the asphericity metric once. -/
theorem pca_single_fit_call :
    pca_trace.countP isPcaEllipsoidCall = 1 ∧
    Op.pcaEllipsoidCall "elli" "pts" ⟨1, 2⟩ ∈ pca_trace ∧
    Op.npRandn2D "pts" 500 3 ∈ pca_trace ∧
    pca_trace.countP isInsidePointsCall = 2 ∧
    Op.insidePointsCall "ipts" "elli" "pts" false ∈ pca_trace ∧
    Op.insidePointsCall "opts" "elli" "pts" true ∈ pca_trace ∧
    pca_trace.countP isCountAccess = 2 ∧
    Op.printcCount "ipts" "g" ∈ pca_trace ∧
    Op.printcCount "opts" "r" ∈ pca_trace ∧
    pca_trace.countP isAsphericityCall = 1 ∧
    Op.printcAsphericity "elli" ∈ pca_trace := by
  decide

/-- C3: the first histogram call receives the 250-value sample `data1` and
exactly the options bins 30, errors on, aspect 4/3, title, color red and
marker o; the returned object is then used for sub-bin recoloring and is
combined with a 3D text annotation. -/
theorem histo_first_call_options :
    (histo1D_trace.filter isHistogramCall).head? =
      some (Op.histogramCall "hst1" "data1"
        [ HistOpt.bins 30, HistOpt.errors true, HistOpt.aspect ⟨4, 3⟩,
          HistOpt.title "My distributions", HistOpt.c "red",
          HistOpt.marker "o" ]) ∧
    Op.npRandn1D "data1" 250 ∈ histo1D_trace ∧
    Op.unpackRecolor "hst1" 15 "violet" ∈ histo1D_trace ∧
    Op.addText3D "hst1" "Highlight a\nspecial bin" ⟨1, 2⟩ ⟨20, 1⟩ "v" ∈ histo1D_trace := by
  decide

/-- C4: the second histogram call receives the second sample `data2`, the
first histogram `hst1` as format template, a transparency option
`alpha = 0.5`, and no other options. -/
theorem histo_second_call_options :
    (histo1D_trace.filter isHistogramCall) =
      [ Op.histogramCall "hst1" "data1"
          [ HistOpt.bins 30, HistOpt.errors true, HistOpt.aspect ⟨4, 3⟩,
            HistOpt.title "My distributions", HistOpt.c "red",
            HistOpt.marker "o" ],
        Op.histogramCall "hst2" "data2"
          [ HistOpt.format "hst1", HistOpt.alpha ⟨1, 2⟩ ] ] ∧
    Op.npRandScaled "data2" 250 ∈ histo1D_trace := by
  decide

/-- C6: the histogram script's display call receives exactly the two
histograms and zoom 1.3, occurs exactly once, and is the final operation of
the script. -/
theorem histo_show_last :
    histo1D_trace.filter isShowCall = [Op.showCall ["hst1", "hst2"] ⟨13, 10⟩] ∧
    histo1D_trace.getLast? = some (Op.showCall ["hst1", "hst2"] ⟨13, 10⟩) := by
  decide

/-- C8: the PCA script's operations occur in textual order: the point cloud
is generated before the ellipsoid fit, the fit before both containment
tests, containment tests and all prints before the show call, and the close
call after the show call.  (Indices are positions in the script's statement
list, which is its textual order.) -/
theorem pca_sequential_order :
    pca_trace.findIdx (fun o => o = Op.npRandn2D "pts" 500 3) <
      pca_trace.findIdx isPcaEllipsoidCall ∧
    pca_trace.findIdx isPcaEllipsoidCall <
      pca_trace.findIdx (fun o => o = Op.insidePointsCall "ipts" "elli" "pts" false) ∧
    pca_trace.findIdx isPcaEllipsoidCall <
      pca_trace.findIdx (fun o => o = Op.insidePointsCall "opts" "elli" "pts" true) ∧
    pca_trace.findIdx (fun o => o = Op.insidePointsCall "ipts" "elli" "pts" false) <
      pca_trace.findIdx (fun o => o = Op.plotterShow "plt") ∧
    pca_trace.findIdx (fun o => o = Op.insidePointsCall "opts" "elli" "pts" true) <
      pca_trace.findIdx (fun o => o = Op.plotterShow "plt") ∧
    pca_trace.findIdx (fun o => o = Op.printcCount "ipts" "g") <
      pca_trace.findIdx (fun o => o = Op.plotterShow "plt") ∧
    pca_trace.findIdx (fun o => o = Op.printcCount "opts" "r") <
      pca_trace.findIdx (fun o => o = Op.plotterShow "plt") ∧
    pca_trace.findIdx (fun o => o = Op.printcAsphericity "elli") <
      pca_trace.findIdx (fun o => o = Op.plotterShow "plt") ∧
    pca_trace.findIdx (fun o => o = Op.plotterShow "plt") <
      pca_trace.findIdx (fun o => o = Op.plotterClose "plt") ∧
    pca_trace.findIdx (fun o => o = Op.plotterClose "plt") < pca_trace.length := by
  decide

/-- A 3D point of the cloud, as a triple of rational coordinates. -/
abbrev Point3 := ℚ × ℚ × ℚ

/-- Modelled from the spec: the library's `insidePoints` containment-test
method is not part of this repository; the spec describes it as selecting
the points of the cloud inside the fitted surface, with an inversion flag
selecting the outside points instead.  `contains` stands for the fitted
surface's containment predicate. -/
def insidePoints (contains : Point3 → Bool) (invert : Bool)
    (pts : List Point3) : List Point3 :=
  pts.filter (fun p => contains p != invert)

lemma insidePoints_split (contains : Point3 → Bool) :
    ∀ l : List Point3,
      (insidePoints contains false l).length +
        (insidePoints contains true l).length = l.length := by
  intro l
  induction l with
  | nil => rfl
  | cons a t ih =>
    cases hq : contains a <;>
      simp [insidePoints, List.filter_cons, hq] at ih ⊢ <;> omega

/-- C2: the containment test with the inversion flag off and the one with it
on partition the input: for a 500-point cloud the count of the inside set
plus the count of the outside set is 500, whatever the fitted surface. -/
theorem insidePoints_partition (contains : Point3 → Bool) (pts : List Point3)
    (h : pts.length = 500) :
    (insidePoints contains false pts).length +
      (insidePoints contains true pts).length = 500 := by
  have key := insidePoints_split contains pts
  omega

/-- Witness: the partition theorem applied to a concrete 500-point cloud and
the always-true containment predicate. -/
theorem insidePoints_partition_witness :
    (List.replicate 500 ((0 : ℚ), (0 : ℚ), (0 : ℚ))).length = 500 ∧
    (insidePoints (fun _ => true) false
        (List.replicate 500 ((0 : ℚ), (0 : ℚ), (0 : ℚ)))).length +
      (insidePoints (fun _ => true) true
        (List.replicate 500 ((0 : ℚ), (0 : ℚ), (0 : ℚ)))).length = 500 :=
  ⟨List.length_replicate 500 _,
    insidePoints_partition (fun _ => true) _ (List.length_replicate 500 _)⟩

/-- A histogram bin as the spec describes one: a bar with a height, an
error bar, and a color. -/
structure HBin where
  height : NumLit
  errBar : NumLit
  color : String
deriving DecidableEq, Repr

/-- A constructed histogram figure: its list of bins plus its remaining
attributes (title, marker, fill transparency). -/
structure HistoFig where
  bins : List HBin
  title : String
  marker : String
  alpha : NumLit
deriving DecidableEq, Repr

/-- Modelled from the spec: the library's sub-bin recoloring is not part of
this repository; the spec describes `unpack(i)` as selecting the i-th
sub-bin and `.c(col)` as recoloring it.  The combined effect replaces the
color of the bin at index `i` and touches nothing else. -/
def recolorBins : List HBin → Nat → String → List HBin
  | [], _, _ => []
  | b :: t, 0, col => { b with color := col } :: t
  | b :: t, j + 1, col => b :: recolorBins t j col

/-- Modelled from the spec: the histogram object after `unpack(i).c(col)`. -/
def unpackRecolorFig (h : HistoFig) (i : Nat) (col : String) : HistoFig :=
  { h with bins := recolorBins h.bins i col }

lemma recolorBins_getElem_ne (col : String) :
    ∀ (l : List HBin) (i j : Nat), j ≠ i →
      (recolorBins l i col)[j]? = l[j]? := by
  intro l
  induction l with
  | nil => intro i j _; cases i <;> rfl
  | cons b t ih =>
    intro i j hj
    cases i with
    | zero =>
      cases j with
      | zero => exact absurd rfl hj
      | succ j => simp [recolorBins]
    | succ i =>
      cases j with
      | zero => simp [recolorBins]
      | succ j =>
        simp only [recolorBins, List.getElem?_cons_succ]
        exact ih i j (fun h => hj (by rw [h]))

lemma recolorBins_getElem_eq (col : String) :
    ∀ (l : List HBin) (i : Nat),
      (recolorBins l i col)[i]? =
        l[i]?.map (fun b => { b with color := col }) := by
  intro l
  induction l with
  | nil => intro i; cases i <;> rfl
  | cons b t ih =>
    intro i
    cases i with
    | zero => simp [recolorBins]
    | succ i =>
      simp only [recolorBins, List.getElem?_cons_succ]
      exact ih i

lemma recolorBins_length (col : String) :
    ∀ (l : List HBin) (i : Nat), (recolorBins l i col).length = l.length := by
  intro l
  induction l with
  | nil => intro i; cases i <;> rfl
  | cons b t ih =>
    intro i
    cases i with
    | zero => rfl
    | succ i => simp [recolorBins, ih i]

/-- C5: recoloring the sub-bin at index 15 changes only that bin's color:
every bin at another index is unchanged, the recolored bin keeps its height
and error bar, the bin count is unchanged, and the histogram's other
attributes are unchanged. -/
theorem unpackRecolor_frame (h : HistoFig) (col : String) :
    (∀ j, j ≠ 15 → (unpackRecolorFig h 15 col).bins[j]? = h.bins[j]?) ∧
    (unpackRecolorFig h 15 col).bins[15]? =
      h.bins[15]?.map (fun b => { b with color := col }) ∧
    (unpackRecolorFig h 15 col).bins.length = h.bins.length ∧
    (unpackRecolorFig h 15 col).title = h.title ∧
    (unpackRecolorFig h 15 col).marker = h.marker ∧
    (unpackRecolorFig h 15 col).alpha = h.alpha := by
  refine ⟨?_, ?_, ?_, rfl, rfl, rfl⟩
  · intro j hj
    exact recolorBins_getElem_ne col h.bins 15 j hj
  · exact recolorBins_getElem_eq col h.bins 15
  · exact recolorBins_length col h.bins 15

/-- A concrete 30-bin histogram figure used as witness input. -/
def sampleFig : HistoFig :=
  ⟨List.replicate 30 ⟨⟨1, 1⟩, ⟨0, 1⟩, "red"⟩, "My distributions", "o", ⟨1, 1⟩⟩

/-- Witness: the frame theorem applied to the concrete figure, recoloring
bin 15 violet and checking bin 0 untouched and bin 15 recolored. -/
theorem unpackRecolor_frame_witness :
    (0 : Nat) ≠ 15 ∧
    (unpackRecolorFig sampleFig 15 "violet").bins[0]? = sampleFig.bins[0]? ∧
    (unpackRecolorFig sampleFig 15 "violet").bins[15]? =
      sampleFig.bins[15]?.map (fun b => { b with color := "violet" }) :=
  ⟨by decide, (unpackRecolor_frame sampleFig "violet").1 0 (by decide),
    (unpackRecolor_frame sampleFig "violet").2.1⟩

/-- A statement of a script: either a plain library call or a try/except
block.  The try/except form exists in the embedding so that the absence of
error handling in the notebooks is an expressible fact; neither notebook
contains one. -/
inductive Stmt where
  | call : Op → Stmt
  | tryExcept : List Op → List Op → Stmt
deriving DecidableEq, Repr

def isTryExcept : Stmt → Bool
  | Stmt.tryExcept _ _ => true
  | _ => false

/-- The histogram script as a statement list: every statement is a plain
call. -/
def histo1D_script : List Stmt := histo1D_trace.map Stmt.call

/-- The PCA script as a statement list: every statement is a plain call. -/
def pca_script : List Stmt := pca_trace.map Stmt.call

/-- Run a sequence of plain calls under a failure oracle: operations execute
in order until the first one that raises; the result is the executed prefix
and whether the run completed. -/
def execOps (fails : Op → Bool) : List Op → List Op × Bool
  | [] => ([], true)
  | op :: rest =>
    if fails op then ([], false)
    else
      let r := execOps fails rest
      (op :: r.1, r.2)

/-- Run a script under a failure oracle.  A raised exception propagates: it
is caught only by a `tryExcept` handler; with no handler it aborts the rest
of the script. -/
def execStmts (fails : Op → Bool) : List Stmt → List Op × Bool
  | [] => ([], true)
  | Stmt.call op :: rest =>
    if fails op then ([], false)
    else
      let r := execStmts fails rest
      (op :: r.1, r.2)
  | Stmt.tryExcept body handler :: rest =>
    let rb := execOps fails body
    if rb.2 then
      let r := execStmts fails rest
      (rb.1 ++ r.1, r.2)
    else
      let rh := execOps fails handler
      if rh.2 then
        let r := execStmts fails rest
        (rb.1 ++ rh.1 ++ r.1, r.2)
      else (rb.1 ++ rh.1, false)

lemma execStmts_map_call (fails : Op → Bool) :
    ∀ l : List Op, execStmts fails (l.map Stmt.call) = execOps fails l := by
  intro l
  induction l with
  | nil => rfl
  | cons a t ih => simp [execStmts, execOps, ih]

lemma execOps_halt (fails : Op → Bool) :
    ∀ (l : List Op) (i : Nat) (op : Op),
      l[i]? = some op → fails op = true →
      (l.take i).all (fun o => !(fails o)) = true →
      execOps fails l = (l.take i, false) := by
  intro l
  induction l with
  | nil => intro i op hget; simp at hget
  | cons a t ih =>
    intro i op hget hf hprev
    cases i with
    | zero =>
      rw [List.getElem?_cons_zero, Option.some_inj] at hget
      subst hget
      simp [execOps, hf]
    | succ i =>
      rw [List.take_succ_cons, List.all_cons, Bool.and_eq_true,
        Bool.not_eq_true'] at hprev
      rw [List.getElem?_cons_succ] at hget
      rw [List.take_succ_cons]
      simp [execOps, hprev.1, ih i op hget hf hprev.2]

/-- C9: neither script contains an error-handling construct, and under any
failure oracle, if the operation at index `i` raises while every earlier
one succeeds, then exactly the first `i` operations execute, the run
reports failure, and no recovery operation runs. -/
theorem scripts_no_error_handling :
    histo1D_script.all (fun s => !(isTryExcept s)) = true ∧
    pca_script.all (fun s => !(isTryExcept s)) = true ∧
    (∀ (fails : Op → Bool) (i : Nat) (op : Op),
      histo1D_trace[i]? = some op → fails op = true →
      (histo1D_trace.take i).all (fun o => !(fails o)) = true →
      execStmts fails histo1D_script = (histo1D_trace.take i, false)) ∧
    (∀ (fails : Op → Bool) (i : Nat) (op : Op),
      pca_trace[i]? = some op → fails op = true →
      (pca_trace.take i).all (fun o => !(fails o)) = true →
      execStmts fails pca_script = (pca_trace.take i, false)) := by
  refine ⟨by decide, by decide, ?_, ?_⟩
  · intro fails i op hget hf hprev
    rw [histo1D_script, execStmts_map_call]
    exact execOps_halt fails histo1D_trace i op hget hf hprev
  · intro fails i op hget hf hprev
    rw [pca_script, execStmts_map_call]
    exact execOps_halt fails pca_trace i op hget hf hprev

/-- Witness: with a failure oracle under which the show call raises, the
histogram script executes exactly its first 11 operations and aborts. -/
theorem scripts_no_error_handling_witness :
    histo1D_trace[11]? = some (Op.showCall ["hst1", "hst2"] ⟨13, 10⟩) ∧
    execStmts isShowCall histo1D_script = (histo1D_trace.take 11, false) :=
  ⟨by decide,
    scripts_no_error_handling.2.2.1 isShowCall 11
      (Op.showCall ["hst1", "hst2"] ⟨13, 10⟩) (by decide) (by decide) (by decide)⟩

/-- Modelled from the spec: the NumPy global random number generator both
scripts draw from is not part of this repository.  It is a deterministic
state machine: `draw s` yields the sample produced in state `s` together
with the successor state, and `np.random.seed v` replaces the state by
`seedFn v`.  `drawN draw n s` draws `n` samples starting from state `s`. -/
def drawN (draw : Nat → ℚ × Nat) : Nat → Nat → List ℚ × Nat
  | 0, s => ([], s)
  | n + 1, s =>
    let v := draw s
    let r := drawN draw n v.2
    (v.1 :: r.1, r.2)

/-- The two sample arrays of the histogram script together with the final
generator state: the script seeds with 3, draws 250 values into `data1`,
then draws 250 values and rescales them by `(x - 0.5) * 12` into `data2`.
The generator state the script starts in is the last argument. -/
def histoSamples (draw : Nat → ℚ × Nat) (seedFn : Nat → Nat) :
    Nat → (List ℚ × List ℚ) × Nat := fun _s0 =>
  let s1 := seedFn 3
  let r1 := drawN draw 250 s1
  let r2 := drawN draw 250 r1.2
  ((r1.1, r2.1.map (fun x => (x - 1/2) * 12)), r2.2)

/-- The point-cloud samples of the PCA script: 500 × 3 draws from the
generator state the script starts in; the script sets no seed. -/
def pcaSamples (draw : Nat → ℚ × Nat) (s0 : Nat) : List ℚ :=
  (drawN draw 1500 s0).1

/-- Generator state left behind by the histogram script's seed and draws. -/
def histoFinalState (draw : Nat → ℚ × Nat) (seedFn : Nat → Nat)
    (s0 : Nat) : Nat :=
  (histoSamples draw seedFn s0).2

/-- A concrete instance of the abstract generator: state `s` yields sample
`s` and successor state `s + 1`. -/
def drawEx : Nat → ℚ × Nat := fun s => ((s : ℚ), s + 1)

lemma drawN_head (draw : Nat → ℚ × Nat) (n s : Nat) :
    ((drawN draw (n + 1) s).1).head? = some (draw s).1 := rfl

lemma drawEx_state : ∀ (n s : Nat), (drawN drawEx n s).2 = s + n := by
  intro n
  induction n with
  | zero => intro s; rfl
  | succ n ih =>
    intro s
    show (drawN drawEx (n + 1) s).2 = s + (n + 1)
    simp only [drawN]
    rw [ih]
    show s + 1 + n = s + (n + 1)
    omega

/-- C10: the histogram script's sample arrays are identical across runs
whatever generator state the run starts in, because the script seeds first;
the PCA script sets no seed, and its point cloud is not fixed: some
generator and pair of initial states yield different clouds. -/
theorem seed_determinism :
    (∀ (draw : Nat → ℚ × Nat) (seedFn : Nat → Nat) (s t : Nat),
      histoSamples draw seedFn s = histoSamples draw seedFn t) ∧
    (∃ (draw : Nat → ℚ × Nat) (s t : Nat),
      pcaSamples draw s ≠ pcaSamples draw t) := by
  constructor
  · intro draw seedFn s t
    rfl
  · refine ⟨drawEx, 0, 1, ?_⟩
    intro hEq
    have h0 : (pcaSamples drawEx 0).head? = some (drawEx 0).1 :=
      drawN_head drawEx 1499 0
    have h1 : (pcaSamples drawEx 1).head? = some (drawEx 1).1 :=
      drawN_head drawEx 1499 1
    rw [hEq] at h0
    have hsame := h1.symm.trans h0
    rw [Option.some_inj] at hsame
    norm_num [drawEx] at hsame

/-- The shared-state location holding the NumPy global generator state. -/
def rngLoc : String := "np.random.state"

def formatRef : HistOpt → Option String
  | HistOpt.format h => some h
  | _ => none

/-- Locations (script variables and the global generator state) written by
one operation. -/
def writesOf : Op → List String
  | Op.importNumpy => []
  | Op.importVedo => []
  | Op.importHistogramFn => []
  | Op.embedWindow _ => []
  | Op.npSeed _ => [rngLoc]
  | Op.npRandn1D t _ => [t, rngLoc]
  | Op.npRandScaled t _ => [t, rngLoc]
  | Op.histogramCall t _ _ => [t]
  | Op.unpackRecolor t _ _ => [t]
  | Op.addText3D t _ _ _ _ => [t]
  | Op.showCall _ _ => []
  | Op.mkPlotter t => [t]
  | Op.npRandn2D t _ _ => [t, rngLoc]
  | Op.pcaEllipsoidCall t _ _ => [t]
  | Op.plotterAdd p _ => [p]
  | Op.insidePointsCall t _ _ _ => [t]
  | Op.plotterAddPoints p _ _ => [p]
  | Op.printcCount _ _ => []
  | Op.printcAsphericity _ => []
  | Op.plotterShow _ => []
  | Op.plotterClose p => [p]

/-- Locations read by one operation. -/
def readsOf : Op → List String
  | Op.importNumpy => []
  | Op.importVedo => []
  | Op.importHistogramFn => []
  | Op.embedWindow _ => []
  | Op.npSeed _ => []
  | Op.npRandn1D _ _ => [rngLoc]
  | Op.npRandScaled _ _ => [rngLoc]
  | Op.histogramCall _ d opts => d :: opts.filterMap formatRef
  | Op.unpackRecolor t _ _ => [t]
  | Op.addText3D t _ _ _ _ => [t]
  | Op.showCall objs _ => objs
  | Op.mkPlotter _ => []
  | Op.npRandn2D _ _ _ => [rngLoc]
  | Op.pcaEllipsoidCall _ p _ => [p]
  | Op.plotterAdd p o => [p, o]
  | Op.insidePointsCall _ e p _ => [e, p]
  | Op.plotterAddPoints p o _ => [p, o]
  | Op.printcCount v _ => [v]
  | Op.printcAsphericity o => [o]
  | Op.plotterShow p => [p]
  | Op.plotterClose p => [p]

/-- All locations a script writes. -/
def traceWrites (l : List Op) : List String := (l.map writesOf).flatten

/-- All locations a script reads. -/
def traceReads (l : List Op) : List String := (l.map readsOf).flatten

set_option maxRecDepth 10000 in
/-- C7 counterexample: the claim of full independence is false.  The
histogram script mutates the NumPy global generator state (seed and draws)
and the PCA script reads that state (unseeded draws); concretely, running
the histogram script first leaves the generator in a state from which the
PCA script draws a different point cloud than from the fresh state 0. -/
theorem scripts_not_independent :
    rngLoc ∈ traceWrites histo1D_trace ∧
    rngLoc ∈ traceReads pca_trace ∧
    pcaSamples drawEx (histoFinalState drawEx (fun v => v) 0) ≠
      pcaSamples drawEx 0 := by
  refine ⟨by decide, by decide, ?_⟩
  have hfin : histoFinalState drawEx (fun v => v) 0 = 503 := by
    show (drawN drawEx 250 (drawN drawEx 250 3).2).2 = 503
    rw [drawEx_state, drawEx_state]
  rw [hfin]
  intro hEq
  have h0 : (pcaSamples drawEx 503).head? = some (drawEx 503).1 :=
    drawN_head drawEx 1499 503
  have h1 : (pcaSamples drawEx 0).head? = some (drawEx 0).1 :=
    drawN_head drawEx 1499 0
  rw [hEq] at h0
  have hsame := h1.symm.trans h0
  rw [Option.some_inj] at hsame
  norm_num [drawEx] at hsame

set_option maxRecDepth 10000 in
/-- C7 amended: apart from the NumPy global generator state, no location
written by either script is read or written by the other — in particular no
variable name is shared — and the histogram script's own samples are
unaffected by the generator state it starts in, because it seeds first. -/
theorem scripts_independent_except_rng :
    (∀ loc, loc ∈ traceWrites histo1D_trace → loc ∈ traceReads pca_trace →
      loc = rngLoc) ∧
    (∀ loc, loc ∈ traceWrites pca_trace → loc ∈ traceReads histo1D_trace →
      loc = rngLoc) ∧
    (∀ loc, loc ∈ traceWrites histo1D_trace → loc ∈ traceWrites pca_trace →
      loc = rngLoc) ∧
    (∀ (draw : Nat → ℚ × Nat) (seedFn : Nat → Nat) (s t : Nat),
      histoSamples draw seedFn s = histoSamples draw seedFn t) := by
  refine ⟨by decide, by decide, by decide, ?_⟩
  intro draw seedFn s t
  rfl

set_option maxRecDepth 10000 in
/-- Witness: the amended-independence theorem applied at the one shared
location, the generator state. -/
theorem scripts_independent_except_rng_witness :
    rngLoc ∈ traceWrites histo1D_trace ∧ rngLoc ∈ traceReads pca_trace ∧
    rngLoc = rngLoc :=
  ⟨by decide, by decide,
    scripts_independent_except_rng.1 rngLoc (by decide) (by decide)⟩

end VedoNotebooks
